import Mathlib

/-!
Shallow embedding of the `praxis` demo application (Rust, wgpu/winit).

Conventions of the embedding:
* Rust `f32`/`f64` values are modelled as real numbers (`ℝ`).
* Rust panics (`unwrap`, out-of-bounds indexing) are modelled by `Option`:
  a function returns `none` exactly when the original code would abort.
* External nondeterminism is passed explicitly: the wall clock enters
  `App.update` as a parameter `now`, and the three `rand::random::<f32>()`
  samples enter `App.add_cube` as a parameter `rnd`.
* GPU objects whose contents never matter to the program logic (pipelines,
  bind groups, device, queue, ...) are modelled as `Option Unit` tokens;
  buffers whose contents the program rewrites (the cube instance buffer,
  the timer buffer) are modelled by their contents.
* The drawing work recorded on a render pass in the `RedrawRequested`
  branch is modelled as a list of `RenderCmd` values, in issue order.
-/

namespace Praxis

/-! ## winit input events (the fragments the program matches on) -/

/-- `winit::event::ElementState`. -/
inductive ElementState
  | pressed
  | released
deriving DecidableEq, Repr

/-- The `winit::keyboard::KeyCode` values the program distinguishes; every
other physical key code is collapsed into `other`. -/
inductive KeyCode
  | keyW
  | keyA
  | keyS
  | keyD
  | arrowUp
  | arrowDown
  | arrowLeft
  | arrowRight
  | space
  | escape
  | other (n : Nat)
deriving DecidableEq, Repr

/-- `winit::keyboard::PhysicalKey`. -/
inductive PhysicalKey
  | code (k : KeyCode)
  | unidentified
deriving DecidableEq, Repr

/-- The `winit::keyboard::NamedKey` values the program distinguishes. -/
inductive NamedKey
  | escape
  | space
  | other (n : Nat)
deriving DecidableEq, Repr

/-- `winit::keyboard::Key` (logical key). -/
inductive Key
  | named (k : NamedKey)
  | character (s : String)
deriving DecidableEq, Repr

/-- The fields of `winit::event::KeyEvent` the program reads. -/
structure KeyEvent where
  state : ElementState
  physical_key : PhysicalKey
  logical_key : Key
deriving DecidableEq, Repr

/-- The `winit::event::WindowEvent` variants the program matches on;
all remaining variants are collapsed into `other`. -/
inductive WindowEvent
  | closeRequested
  | keyboardInput (event : KeyEvent)
  | redrawRequested
  | other (n : Nat)
deriving DecidableEq, Repr

/-! ## src/controller.rs -/

/-- `Controller` (src/controller.rs). `velocity` is `f32`, modelled as `ℝ`. -/
structure Controller where
  velocity : ℝ
  is_up_pressed : Bool
  is_down_pressed : Bool
  is_left_pressed : Bool
  is_right_pressed : Bool

/-- `Controller::new` (src/controller.rs). -/
def Controller.new (velocity : ℝ) : Controller :=
  { velocity := velocity
    is_up_pressed := false
    is_down_pressed := false
    is_left_pressed := false
    is_right_pressed := false }

/-- `Controller::process_events` (src/controller.rs). The Rust method takes
`&mut self` and returns `bool`; here it returns the updated controller
paired with that boolean. -/
def Controller.process_events (c : Controller) (event : WindowEvent) :
    Controller × Bool :=
  match event with
  | .keyboardInput { state := state, physical_key := .code keycode, .. } =>
    let is_pressed : Bool := state = ElementState.pressed
    match keycode with
    | .keyW | .arrowUp => ({ c with is_up_pressed := is_pressed }, true)
    | .keyA | .arrowLeft => ({ c with is_left_pressed := is_pressed }, true)
    | .keyS | .arrowDown => ({ c with is_down_pressed := is_pressed }, true)
    | .keyD | .arrowRight => ({ c with is_right_pressed := is_pressed }, true)
    | _ => (c, false)
  | _ => (c, false)

/-! ## cgmath vectors, quaternions and matrices (`f32` modelled as `ℝ`) -/

/-- `cgmath::Vector3<f32>`. -/
structure Vec3 where
  x : ℝ
  y : ℝ
  z : ℝ

namespace Vec3

def add (a b : Vec3) : Vec3 := ⟨a.x + b.x, a.y + b.y, a.z + b.z⟩

instance : Add Vec3 := ⟨add⟩

def smul (r : ℝ) (v : Vec3) : Vec3 := ⟨r * v.x, r * v.y, r * v.z⟩

instance : SMul ℝ Vec3 := ⟨smul⟩

def zero : Vec3 := ⟨0, 0, 0⟩

instance : Zero Vec3 := ⟨zero⟩

/-- `cgmath` `InnerSpace::magnitude`: `sqrt (dot v v)`. -/
noncomputable def magnitude (v : Vec3) : ℝ :=
  Real.sqrt (v.x * v.x + v.y * v.y + v.z * v.z)

/-- `cgmath` `InnerSpace::normalize`: `v * (1 / magnitude v)`. -/
noncomputable def normalize (v : Vec3) : Vec3 :=
  (1 / v.magnitude) • v

end Vec3

noncomputable instance : DecidableEq Vec3 := Classical.decEq Vec3

/-- `cgmath::Quaternion<f32>`: scalar part `s` and vector part `v`. -/
structure Quaternion where
  s : ℝ
  v : Vec3

/-- `cgmath` `Quaternion::zero()` (the `Zero` trait impl). -/
def Quaternion.zero : Quaternion := ⟨0, Vec3.zero⟩

/-- 4×4 `f32` matrix (`cgmath::Matrix4<f32>`). -/
abbrev Mat4 := Matrix (Fin 4) (Fin 4) ℝ

/-- `cgmath` `Matrix4::from_translation`: identity with the translation in
the fourth column. -/
noncomputable def from_translation (p : Vec3) : Mat4 :=
  !![1, 0, 0, p.x;
     0, 1, 0, p.y;
     0, 0, 1, p.z;
     0, 0, 0, 1]

/-- `cgmath` `impl From<Quaternion> for Matrix4` (the standard
quaternion-to-rotation-matrix formula; cgmath builds it column-major,
rendered here row-major). -/
noncomputable def mat4_from_quaternion (q : Quaternion) : Mat4 :=
  let x2 := q.v.x + q.v.x
  let y2 := q.v.y + q.v.y
  let z2 := q.v.z + q.v.z
  let xx2 := x2 * q.v.x
  let xy2 := x2 * q.v.y
  let xz2 := x2 * q.v.z
  let yy2 := y2 * q.v.y
  let yz2 := y2 * q.v.z
  let zz2 := z2 * q.v.z
  let sy2 := y2 * q.s
  let sz2 := z2 * q.s
  let sx2 := x2 * q.s
  !![1 - yy2 - zz2, xy2 - sz2, xz2 + sy2, 0;
     xy2 + sz2, 1 - xx2 - zz2, yz2 - sx2, 0;
     xz2 - sy2, yz2 + sx2, 1 - xx2 - yy2, 0;
     0, 0, 0, 1]

/-! ## src/main.rs data -/

/-- `Instance` (src/main.rs): one positioned/rotated copy of the cube. -/
structure Instance where
  position : Vec3
  rotation : Quaternion

/-- `InstanceRaw` (src/main.rs): the raw model matrix uploaded per instance. -/
structure InstanceRaw where
  model : Mat4

/-- `Instance::to_raw` (src/main.rs):
`Matrix4::from_translation(position) * Matrix4::from(rotation)`. -/
noncomputable def Instance.to_raw (i : Instance) : InstanceRaw :=
  ⟨from_translation i.position * mat4_from_quaternion i.rotation⟩

/-- `Camera` (src/camera.rs, reconstructed from its construction site at
src/main.rs lines 214-222, which populates exactly these fields). -/
structure Camera where
  eye : Vec3
  target : Vec3
  up : Vec3
  aspect : ℝ
  fovy : ℝ
  znear : ℝ
  zfar : ℝ

/-- `Timer` (src/timer.rs). `start` is the creation instant (a point on the
wall clock, as `ℝ` seconds); `timer_buffer` models the contents of the GPU
timer buffer (the single `f32` written to it). -/
structure Timer where
  start : ℝ
  elapsed : ℝ
  last : ℝ
  acc : ℝ
  timer_uniform_t : ℝ
  timer_buffer : ℝ

/-- `ModelVertex` (src/vertex.rs, reconstructed from its construction site
in src/cube.rs lines 80-110: position, tex_coords, normal). -/
structure ModelVertex where
  position : ℝ × ℝ × ℝ
  tex_coords : ℝ × ℝ
  normal : ℝ × ℝ × ℝ

/-- `Mesh` (src/cube.rs); the two GPU buffers are modelled by their
contents (the vertex list and the index list written into them). -/
structure Mesh where
  name : String
  vertex_buffer : List ModelVertex
  index_buffer : List Nat
  num_elements : Nat
  material : Nat

/-- `Material` (src/cube.rs); the texture and bind-group handles are
omitted. -/
structure Material where
  name : String

/-- `Cube` (src/cube.rs). -/
structure Cube where
  meshes : List Mesh
  materials : List Material

/-! ## Render commands (the drawing work recorded on the render pass) -/

/-- The two render pipelines the program creates. -/
inductive PipelineId
  | background
  | cube
deriving DecidableEq, Repr

/-- The bind groups the redraw handler binds. -/
inductive BindGroupId
  | backgroundTexture
  | camera
  | material
deriving DecidableEq, Repr

/-- The buffers the redraw handler binds. -/
inductive BufferId
  | backgroundVertex
  | backgroundIndex
  | cubeInstance
  | meshVertex
  | meshIndex
deriving DecidableEq, Repr

/-- `wgpu::IndexFormat`. -/
inductive IndexFormat
  | uint16
  | uint32
deriving DecidableEq, Repr

/-- One piece of drawing work issued by the `RedrawRequested` branch, in
issue order.  The clear color is carried on `beginRenderPass` (as exact
rationals); `drawIndexed a b c d e` is `draw_indexed(a..b, c, d..e)`. -/
inductive RenderCmd
  | beginRenderPass (r g b a : ℚ)
  | setPipeline (p : PipelineId)
  | setBindGroup (index : Nat) (g : BindGroupId)
  | setVertexBuffer (slot : Nat) (b : BufferId)
  | setIndexBuffer (b : BufferId) (fmt : IndexFormat)
  | drawIndexed (istart iend : Nat) (base : Int) (inststart instend : Nat)
  | drawText
  | submit
  | present
  | requestRedraw
deriving DecidableEq, Repr

/-! ## The application state (struct `App`, src/main.rs) -/

/-- `App` (src/main.rs).  GPU handles whose contents the program never
reads are `Option Unit` tokens (`none` until `resumed` populates them);
the cube instance buffer is modelled by its contents.  The source field
`instance` (the `wgpu::Instance`) is renamed `gpu_instance` because
`instance` is a Lean keyword. -/
structure App where
  window : Option Unit
  gpu_instance : Option Unit
  surface : Option Unit
  device : Option Unit
  queue : Option Unit
  vertex_buffer : Option Unit
  index_buffer : Option Unit
  timer : Option Timer
  brush : Option Unit
  text_section : Option Unit
  camera : Option Camera
  camera_buffer : Option Unit
  camera_bind_group : Option Unit
  background_render_pipeline : Option Unit
  background_texture_bind_group : Option Unit
  background_vertex_buffer : Option Unit
  background_index_buffer : Option Unit
  cube_pipeline : Option Unit
  cube_bind_group : Option Unit
  cube_vertex_buf : Option Unit
  cube_index_buf : Option Unit
  cube_instances : List Instance
  cube_instance_buffer : Option (List InstanceRaw)
  cube_model : Option Cube
  cube_position : Option Vec3
  controller : Controller

/-- The move vector `App::update` computes from the controller
(src/main.rs lines 769-788), factored out verbatim: accumulate ±1 into
`x`/`z` from the four key flags, normalize unless the magnitude is zero,
scale by the controller's velocity. -/
noncomputable def update_move_vector (c : Controller) : Vec3 :=
  let x : ℝ := 0
  let y : ℝ := 0
  let z : ℝ := 0
  let z := if c.is_up_pressed then z + 1 else z
  let z := if c.is_down_pressed then z - 1 else z
  let x := if c.is_left_pressed then x - 1 else x
  let x := if c.is_right_pressed then x + 1 else x
  let move_vector := Vec3.mk x y z
  let move_vector :=
    if move_vector.magnitude ≠ 0 then move_vector.normalize else move_vector
  c.velocity • move_vector

/-- `App::update` (src/main.rs lines 767-825).  `now` is the wall-clock
instant at which `timer.start.elapsed()` is sampled (so the sampled
duration is `now - timer.start`).  Returns `none` exactly when the Rust
code would panic (an `unwrap` of a missing queue or instance buffer). -/
noncomputable def App.update (app : App) (now : ℝ) : Option App :=
  let move_vector := update_move_vector app.controller
  let cube_instances :=
    app.cube_instances.map fun c => { c with position := c.position + move_vector }
  let instance_data := cube_instances.map Instance.to_raw
  match app.queue, app.cube_instance_buffer with
  | some _, some _ =>
    let app := { app with
      cube_instances := cube_instances
      cube_instance_buffer := some instance_data }
    match app.timer with
    | some timer =>
      let elapsed := now - timer.start
      let acc := timer.acc + (elapsed - timer.last)
      let last := elapsed
      let t := elapsed
      some { app with timer := some { timer with
        elapsed := elapsed
        acc := acc
        last := last
        timer_uniform_t := t
        timer_buffer := t } }
    | none => some app
  | _, _ => none

/-- `App::add_cube` (src/main.rs lines 827-865).  `rnd` carries the three
`rand::random::<f32>()` samples.  Returns `none` exactly when the Rust
code would panic (missing device or queue). -/
noncomputable def App.add_cube (app : App) (rnd : ℝ × ℝ × ℝ) : Option App :=
  let x := rnd.1 * 10
  let y := rnd.2.1 * 10
  let z := rnd.2.2 * 10
  let position := Vec3.mk x y z
  let cube_instances :=
    app.cube_instances ++ [{ position := position, rotation := Quaternion.zero }]
  let instance_data := cube_instances.map Instance.to_raw
  match app.device, app.queue with
  | some _, some _ =>
    some { app with
      cube_instances := cube_instances
      cube_instance_buffer := some instance_data }
  | _, _ => none

/-- The `RedrawRequested` branch of `App::window_event` (src/main.rs lines
660-761): run `update`, then record the render pass.  The background
quad's own `draw_indexed` is commented out in the source (line 716), so no
draw command appears between the background bindings and the cube
pipeline.  `draw_mesh_instanced` (src/cube.rs lines 167-179) is expanded
into its five commands.  Returns `none` exactly when an `unwrap` (or the
`meshes[0]`/`materials[0]` indexing) would panic. -/
noncomputable def App.redraw (app : App) (now : ℝ) :
    Option (App × List RenderCmd) := do
  let app ← app.update now
  let _ ← app.surface
  let _ ← app.device
  let _ ← app.background_render_pipeline
  let _ ← app.background_texture_bind_group
  let _ ← app.camera_bind_group
  let _ ← app.background_vertex_buffer
  let _ ← app.background_index_buffer
  let _ ← app.cube_pipeline
  let _ ← app.cube_instance_buffer
  let cube_model ← app.cube_model
  let mesh ← cube_model.meshes.head?
  let _material ← cube_model.materials.head?
  let _ ← app.brush
  let _ ← app.queue
  let _ ← app.window
  some (app,
    [ .beginRenderPass (1/10) (2/10) (3/10) 1,
      .setPipeline .background,
      .setBindGroup 0 .backgroundTexture,
      .setBindGroup 1 .camera,
      .setVertexBuffer 0 .backgroundVertex,
      .setIndexBuffer .backgroundIndex .uint16,
      .setPipeline .cube,
      .setVertexBuffer 1 .cubeInstance,
      .setBindGroup 0 .material,
      .setVertexBuffer 0 .meshVertex,
      .setIndexBuffer .meshIndex .uint32,
      .setBindGroup 0 .material,
      .setBindGroup 1 .camera,
      .drawIndexed 0 mesh.num_elements 0 0 app.cube_instances.length,
      .drawText,
      .submit,
      .present,
      .requestRedraw ])

/-- The result of one `window_event` dispatch: the new application state,
whether `event_loop.exit()` was called, and the drawing work issued. -/
structure EventOut where
  app : App
  exited : Bool
  cmds : List RenderCmd

/-- `App::window_event` (src/main.rs lines 632-764).  The controller's
`process_events` runs first and short-circuits the dispatch when it
returns `true`.  Returns `none` exactly when the Rust code would panic. -/
noncomputable def App.window_event (app : App) (event : WindowEvent)
    (now : ℝ) (rnd : ℝ × ℝ × ℝ) : Option EventOut :=
  let pe := app.controller.process_events event
  let app := { app with controller := pe.1 }
  if pe.2 then
    some { app := app, exited := false, cmds := [] }
  else
    match event with
    | .closeRequested =>
      some { app := app, exited := true, cmds := [] }
    | .keyboardInput { state := .pressed, logical_key := .named .escape, .. } =>
      some { app := app, exited := true, cmds := [] }
    | .keyboardInput { state := .pressed, logical_key := .named .space, .. } =>
      (app.add_cube rnd).map fun a => { app := a, exited := false, cmds := [] }
    | .redrawRequested =>
      (app.redraw now).map fun p => { app := p.1, exited := false, cmds := p.2 }
    | _ =>
      some { app := app, exited := false, cmds := [] }

/-! ## Initialization and its fallible operations (C7)

`App::resumed` (src/main.rs lines 163-630) performs a fixed sequence of
fallible external calls; `InitEnv` carries each call's outcome so the
error plumbing of `resumed` and `load_cube` can be stated exactly. -/

/-- `tobj::Mesh` (the fields src/cube.rs reads). -/
structure ObjMesh where
  positions : List ℝ
  normals : List ℝ
  texcoords : List ℝ
  indices : List Nat
  material_id : Option Nat

/-- `tobj::Model`. -/
structure ObjModel where
  mesh : ObjMesh

/-- A `tobj` MTL material (the `name` field is all src/cube.rs reads). -/
structure MtlMaterial where
  name : String

/-- The outcomes of the fallible external calls made during
initialization, in the order `App::resumed` makes them.  `Option Unit`
models calls whose success value the logic never reads; `Except String _`
models `Result`-returning calls. -/
structure InitEnv where
  create_window : Option Unit
  create_surface : Option Unit
  request_adapter : Option Unit
  request_device : Option Unit
  brush_build : Option Unit
  background_from_bytes : Except String Unit
  load_obj : Except String (List ObjModel)
  load_mtl : Except String (List MtlMaterial)
  cube_from_bytes : Except String Unit

/-- Rust `iter().map(f).collect::<Vec<_>>()` where the closure `f` can
panic: the collection aborts (`none`) as soon as one element panics,
otherwise it is the collected list. -/
def mapCollect {α β : Type} (f : α → Option β) : List α → Option (List β)
  | [] => some []
  | a :: l => do
    let b ← f a
    let bs ← mapCollect f l
    pure (b :: bs)

/-- The body of the vertex loop of `load_cube` (src/cube.rs lines 78-111)
at index `i`: build a `ModelVertex` from `positions[i*3..]`,
`texcoords[i*2..]` and, when the normal list is nonempty,
`normals[i*3..]`.  Rust's list indexing panics when out of bounds,
modelled as `none`. -/
noncomputable def vertexAt (m : ObjMesh) (i : Nat) : Option ModelVertex :=
  if m.normals.isEmpty then do
    let p0 ← m.positions[i * 3]?
    let p1 ← m.positions[i * 3 + 1]?
    let p2 ← m.positions[i * 3 + 2]?
    let t0 ← m.texcoords[i * 2]?
    let t1 ← m.texcoords[i * 2 + 1]?
    pure { position := (p0, p1, p2)
           tex_coords := (t0, 1 - t1)
           normal := (0, 0, 0) }
  else do
    let p0 ← m.positions[i * 3]?
    let p1 ← m.positions[i * 3 + 1]?
    let p2 ← m.positions[i * 3 + 2]?
    let t0 ← m.texcoords[i * 2]?
    let t1 ← m.texcoords[i * 2 + 1]?
    let n0 ← m.normals[i * 3]?
    let n1 ← m.normals[i * 3 + 1]?
    let n2 ← m.normals[i * 3 + 2]?
    pure { position := (p0, p1, p2)
           tex_coords := (t0, 1 - t1)
           normal := (n0, n1, n2) }

/-- `load_cube` (src/cube.rs lines 24-136).  The outer `Option` is `none`
exactly when the function panics: `load_mtl(..).unwrap()` on an error, the
`materials[0]` indexing on an empty material list, or an out-of-bounds
list index inside the vertex loop (via `vertexAt`).  The inner `Except`
is the `anyhow::Result` it returns (`?` on `load_obj` and on
`Texture::from_bytes`). -/
noncomputable def load_cube (file_name : String) (env : InitEnv) :
    Option (Except String Cube) :=
  match env.load_obj with
  | .error e => some (.error e)
  | .ok models =>
    match env.load_mtl with
    | .error _ => none
    | .ok obj_materials =>
      match obj_materials.head? with
      | none => none
      | some m0 =>
        let material_name := m0.name
        match env.cube_from_bytes with
        | .error e => some (.error e)
        | .ok _ =>
          let materials : List Material := [{ name := material_name }]
          match mapCollect (fun m => do
              let vertices ← mapCollect (vertexAt m.mesh)
                (List.range (m.mesh.positions.length / 3))
              pure ({ name := file_name
                      vertex_buffer := vertices
                      index_buffer := m.mesh.indices
                      num_elements := m.mesh.indices.length
                      material := m.mesh.material_id.getD 0 } : Mesh)) models with
          | none => none
          | some meshes => some (.ok { meshes := meshes, materials := materials })

/-- The fallible skeleton of `App::resumed` (src/main.rs lines 163-630):
every fallible call is `unwrap`ped in sequence; the first failure aborts
(`none`), otherwise initialization completes with the loaded cube model. -/
noncomputable def resumed_init (env : InitEnv) : Option Cube := do
  let _ ← env.create_window
  let _ ← env.create_surface
  let _ ← env.request_adapter
  let _ ← env.request_device
  let _ ← env.brush_build
  let _ ← env.background_from_bytes.toOption
  match load_cube "cube.obj" env with
  | some (.ok cube) => some cube
  | some (.error _) => none
  | none => none

/-! ## Claim-level helper predicates -/

/-- The eight physical key codes `Controller::process_events` handles. -/
def isMovementKey (k : KeyCode) : Bool :=
  match k with
  | .keyW | .arrowUp | .keyA | .arrowLeft
  | .keyS | .arrowDown | .keyD | .arrowRight => true
  | _ => false

/-- Whether an event is a keyboard input on one of the eight movement
keys (by physical key code). -/
def isMovementKeyEvent (e : WindowEvent) : Bool :=
  match e with
  | .keyboardInput { physical_key := .code k, .. } => isMovementKey k
  | _ => false

/-- Whether an event is a keyboard input with the Escape logical key in
the pressed state (the condition the quit arm of `window_event` tests). -/
def isEscapeLogicalPress (e : WindowEvent) : Bool :=
  match e with
  | .keyboardInput { state := .pressed, logical_key := .named .escape, .. } => true
  | _ => false

/-- Whether a command list contains a draw call issued while the
background pipeline is the currently bound pipeline. -/
def drawsBackgroundQuadFrom : Option PipelineId → List RenderCmd → Bool
  | _, [] => false
  | _, .setPipeline p :: rest => drawsBackgroundQuadFrom (some p) rest
  | cur, .drawIndexed _ _ _ _ _ :: rest =>
    (cur == some .background) || drawsBackgroundQuadFrom cur rest
  | cur, _ :: rest => drawsBackgroundQuadFrom cur rest

/-- Whether the frame contains a draw call for the background quad. -/
def drawsBackgroundQuad (cmds : List RenderCmd) : Bool :=
  drawsBackgroundQuadFrom none cmds

/-- The number of instances drawn by the first indexed draw call of the
frame, if any. -/
def cubeDrawInstances (cmds : List RenderCmd) : Option Nat :=
  cmds.findSome? fun c =>
    match c with
    | .drawIndexed _ _ _ s e => some (e - s)
    | _ => none

/-! ## A concrete post-initialization state (used by witnesses) -/

/-- A concrete timer (`Timer::new` initializes `t` to `0.2`). -/
noncomputable def timerW : Timer :=
  { start := 0, elapsed := 0, last := 0, acc := 0
    timer_uniform_t := 0.2, timer_buffer := 0.2 }

/-- The camera `App::resumed` creates (src/main.rs lines 214-222). -/
noncomputable def cameraW : Camera :=
  { eye := ⟨8.4, 25, -8.4⟩, target := ⟨0, 0, 0⟩, up := ⟨0, 1, 0⟩
    aspect := 1024 / 768, fovy := 90, znear := 0.1, zfar := 100 }

/-- A concrete loaded cube mesh (a cube has 36 triangle indices). -/
noncomputable def meshW : Mesh :=
  { name := "cube.obj", vertex_buffer := [], index_buffer := List.range 36
    num_elements := 36, material := 0 }

/-- A concrete material. -/
def materialW : Material := { name := "cobble" }

/-- The initial cube instance (`App::resumed` spawns one at `(-1,-1,-1)`
with the zero quaternion). -/
noncomputable def instW : Instance :=
  { position := ⟨-1, -1, -1⟩, rotation := Quaternion.zero }

/-- A fully populated application state, as it stands right after
`App::resumed` (all handles present, one cube instance, controller
velocity `0.5`). -/
noncomputable def appW : App :=
  { window := some (), gpu_instance := some (), surface := some ()
    device := some (), queue := some ()
    vertex_buffer := some (), index_buffer := some ()
    timer := some timerW, brush := some (), text_section := some ()
    camera := some cameraW, camera_buffer := some ()
    camera_bind_group := some ()
    background_render_pipeline := some ()
    background_texture_bind_group := some ()
    background_vertex_buffer := some ()
    background_index_buffer := some ()
    cube_pipeline := some (), cube_bind_group := some ()
    cube_vertex_buf := some (), cube_index_buf := some ()
    cube_instances := [instW]
    cube_instance_buffer := some ([instW].map Instance.to_raw)
    cube_model := some { meshes := [meshW], materials := [materialW] }
    cube_position := some ⟨-1, -1, -1⟩
    controller := Controller.new 0.5 }

/-- The two canonical key-press events named by the claims: the Space key
(physical code Space, logical Space) pressed. -/
def spacePressEvent : WindowEvent :=
  .keyboardInput { state := .pressed, physical_key := .code .space
                   logical_key := .named .space }

/-- The Escape key (physical code Escape, logical Escape) pressed. -/
def escapePressEvent : WindowEvent :=
  .keyboardInput { state := .pressed, physical_key := .code .escape
                   logical_key := .named .escape }

/-- The per-frame displacement as claim C2 words it: `d` accumulates `+1`
in z when `is_up_pressed`, `-1` in z when `is_down_pressed`, `-1` in x
when `is_left_pressed`, `+1` in x when `is_right_pressed`; the
displacement is the controller's velocity times `normalize d` (with `d`
left unnormalized when it is zero). -/
noncomputable def specMoveVector (c : Controller) : Vec3 :=
  let d : Vec3 :=
    ⟨(if c.is_right_pressed then (1 : ℝ) else 0) +
       (if c.is_left_pressed then (-1 : ℝ) else 0), 0,
     (if c.is_up_pressed then (1 : ℝ) else 0) +
       (if c.is_down_pressed then (-1 : ℝ) else 0)⟩
  c.velocity • (if d = Vec3.zero then d else d.normalize)

/-! ## Support lemmas -/

theorem Vec3.magnitude_eq_zero (v : Vec3) : v.magnitude = 0 ↔ v = Vec3.zero := by
  unfold Vec3.magnitude
  rw [Real.sqrt_eq_zero']
  constructor
  · intro h
    have hx := mul_self_nonneg v.x
    have hy := mul_self_nonneg v.y
    have hz := mul_self_nonneg v.z
    have ex : v.x = 0 := mul_self_eq_zero.mp (le_antisymm (by linarith) hx)
    have ey : v.y = 0 := mul_self_eq_zero.mp (le_antisymm (by linarith) hy)
    have ez : v.z = 0 := mul_self_eq_zero.mp (le_antisymm (by linarith) hz)
    cases v
    simp_all [Vec3.zero]
  · rintro rfl
    simp [Vec3.zero]

theorem Vec3.norm_ite_eq (v : Vec3) :
    (if v.magnitude ≠ 0 then v.normalize else v) =
      (if v = Vec3.zero then v else v.normalize) := by
  by_cases h : v = Vec3.zero
  · subst h
    have h0 : Vec3.zero.magnitude = 0 := (Vec3.magnitude_eq_zero _).mpr rfl
    simp [h0]
  · have h0 : v.magnitude ≠ 0 := fun hm => h ((Vec3.magnitude_eq_zero v).mp hm)
    simp [h, h0]

theorem update_move_vector_eq_spec (c : Controller) :
    update_move_vector c = specMoveVector c := by
  unfold update_move_vector specMoveVector
  simp only [Vec3.norm_ite_eq]
  cases hu : c.is_up_pressed <;> cases hdn : c.is_down_pressed <;>
    cases hl : c.is_left_pressed <;> cases hr : c.is_right_pressed <;>
    norm_num

theorem App.update_eq (app : App) (now : ℝ) (q : Unit) (buf : List InstanceRaw)
    (hq : app.queue = some q) (hb : app.cube_instance_buffer = some buf) :
    app.update now = some { app with
      cube_instances := app.cube_instances.map fun c =>
        { c with position := c.position + update_move_vector app.controller }
      cube_instance_buffer := some ((app.cube_instances.map fun c =>
        { c with position := c.position + update_move_vector app.controller
        }).map Instance.to_raw)
      timer := app.timer.map fun t => { t with
        elapsed := now - t.start
        acc := t.acc + ((now - t.start) - t.last)
        last := now - t.start
        timer_uniform_t := now - t.start
        timer_buffer := now - t.start } } := by
  unfold App.update
  rw [hq, hb]
  cases ht : app.timer <;> simp [ht]

theorem App.update_length (app : App) (now : ℝ) (a : App)
    (h : app.update now = some a) :
    a.cube_instances.length = app.cube_instances.length := by
  unfold App.update at h
  split at h
  · dsimp only at h
    split at h <;> (cases h; simp)
  · exact Option.noConfusion h

theorem App.update_camera_eq (app : App) (now : ℝ) (a : App)
    (h : app.update now = some a) : a.camera = app.camera := by
  unfold App.update at h
  split at h
  · dsimp only at h
    split at h <;> (cases h; rfl)
  · exact Option.noConfusion h

theorem App.add_cube_eq (app : App) (rnd : ℝ × ℝ × ℝ) (d q : Unit)
    (hd : app.device = some d) (hq : app.queue = some q) :
    app.add_cube rnd = some { app with
      cube_instances := app.cube_instances ++
        [({ position := Vec3.mk (rnd.1 * 10) (rnd.2.1 * 10) (rnd.2.2 * 10)
            rotation := Quaternion.zero } : Instance)]
      cube_instance_buffer := some ((app.cube_instances ++
        [({ position := Vec3.mk (rnd.1 * 10) (rnd.2.1 * 10) (rnd.2.2 * 10)
            rotation := Quaternion.zero } : Instance)]).map Instance.to_raw) } := by
  unfold App.add_cube
  rw [hd, hq]

theorem App.add_cube_camera_eq (app : App) (rnd : ℝ × ℝ × ℝ) (a : App)
    (h : app.add_cube rnd = some a) : a.camera = app.camera := by
  unfold App.add_cube at h
  split at h
  · cases h; rfl
  · exact Option.noConfusion h

/-- The drawing work of one frame, as the redraw handler issues it: clear,
bind the background pipeline/texture/quad buffers (with no draw call for
them), switch to the cube pipeline, draw the cube mesh instanced, draw the
text, submit, present, request the next redraw. -/
def frameCmds (numElements instanceCount : Nat) : List RenderCmd :=
  [ .beginRenderPass (1/10) (2/10) (3/10) 1,
    .setPipeline .background,
    .setBindGroup 0 .backgroundTexture,
    .setBindGroup 1 .camera,
    .setVertexBuffer 0 .backgroundVertex,
    .setIndexBuffer .backgroundIndex .uint16,
    .setPipeline .cube,
    .setVertexBuffer 1 .cubeInstance,
    .setBindGroup 0 .material,
    .setVertexBuffer 0 .meshVertex,
    .setIndexBuffer .meshIndex .uint32,
    .setBindGroup 0 .material,
    .setBindGroup 1 .camera,
    .drawIndexed 0 numElements 0 0 instanceCount,
    .drawText,
    .submit,
    .present,
    .requestRedraw ]

theorem App.redraw_props (app : App) (now : ℝ) (p : App × List RenderCmd)
    (h : app.redraw now = some p) :
    p.1.camera = app.camera ∧
      cubeDrawInstances p.2 = some app.cube_instances.length := by
  unfold App.redraw at h
  simp only [Option.bind_eq_bind, Option.bind_eq_some'] at h
  obtain ⟨a, ha, h⟩ := h
  obtain ⟨_, _, h⟩ := h
  obtain ⟨_, _, h⟩ := h
  obtain ⟨_, _, h⟩ := h
  obtain ⟨_, _, h⟩ := h
  obtain ⟨_, _, h⟩ := h
  obtain ⟨_, _, h⟩ := h
  obtain ⟨_, _, h⟩ := h
  obtain ⟨_, _, h⟩ := h
  obtain ⟨_, _, h⟩ := h
  obtain ⟨cm, hcm, h⟩ := h
  obtain ⟨mesh, hmesh, h⟩ := h
  obtain ⟨_, _, h⟩ := h
  obtain ⟨_, _, h⟩ := h
  obtain ⟨_, _, h⟩ := h
  obtain ⟨_, _, h⟩ := h
  simp only [Option.some.injEq] at h
  subst h
  refine ⟨App.update_camera_eq app now a ha, ?_⟩
  simp [cubeDrawInstances, App.update_length app now a ha]

theorem App.redraw_cmds_eq (app : App) (now : ℝ) (q : Unit)
    (buf : List InstanceRaw) (hq : app.queue = some q)
    (hb : app.cube_instance_buffer = some buf)
    (hs : app.surface.isSome = true) (hd : app.device.isSome = true)
    (hbp : app.background_render_pipeline.isSome = true)
    (hbtg : app.background_texture_bind_group.isSome = true)
    (hcbg : app.camera_bind_group.isSome = true)
    (hbvb : app.background_vertex_buffer.isSome = true)
    (hbib : app.background_index_buffer.isSome = true)
    (hcp : app.cube_pipeline.isSome = true)
    (cm : Cube) (hcm : app.cube_model = some cm)
    (mesh : Mesh) (hmesh : cm.meshes.head? = some mesh)
    (mat : Material) (hmat : cm.materials.head? = some mat)
    (hbr : app.brush.isSome = true) (hw : app.window.isSome = true) :
    (app.redraw now).map Prod.snd =
      some (frameCmds mesh.num_elements app.cube_instances.length) := by
  obtain ⟨s, hs⟩ := Option.isSome_iff_exists.mp hs
  obtain ⟨d, hd⟩ := Option.isSome_iff_exists.mp hd
  obtain ⟨bp, hbp⟩ := Option.isSome_iff_exists.mp hbp
  obtain ⟨btg, hbtg⟩ := Option.isSome_iff_exists.mp hbtg
  obtain ⟨cbg, hcbg⟩ := Option.isSome_iff_exists.mp hcbg
  obtain ⟨bvb, hbvb⟩ := Option.isSome_iff_exists.mp hbvb
  obtain ⟨bib, hbib⟩ := Option.isSome_iff_exists.mp hbib
  obtain ⟨cp, hcp⟩ := Option.isSome_iff_exists.mp hcp
  obtain ⟨br, hbr⟩ := Option.isSome_iff_exists.mp hbr
  obtain ⟨w, hw⟩ := Option.isSome_iff_exists.mp hw
  unfold App.redraw
  rw [App.update_eq app now q buf hq hb]
  simp [hs, hd, hbp, hbtg, hcbg, hbvb, hbib, hcp, hcm, hmesh, hmat, hbr, hw,
    hq, frameCmds]

theorem App.window_event_props (app : App) (e : WindowEvent) (now : ℝ)
    (rnd : ℝ × ℝ × ℝ) (o : EventOut) (h : app.window_event e now rnd = some o) :
    o.app.camera = app.camera ∧
      (o.exited = true → e = .closeRequested ∨ isEscapeLogicalPress e = true) := by
  unfold App.window_event at h
  dsimp only at h
  split at h
  · cases h
    exact ⟨rfl, fun hex => Bool.noConfusion hex⟩
  · split at h
    · cases h
      exact ⟨rfl, fun _ => Or.inl rfl⟩
    · cases h
      exact ⟨rfl, fun _ => Or.inr rfl⟩
    · simp only [Option.map_eq_some'] at h
      obtain ⟨a, ha, ho⟩ := h
      subst ho
      have h2 := App.add_cube_camera_eq _ rnd a ha
      exact ⟨h2, fun hex => Bool.noConfusion hex⟩
    · simp only [Option.map_eq_some'] at h
      obtain ⟨pr, hpr, ho⟩ := h
      subst ho
      have h2 := (App.redraw_props _ now pr hpr).1
      exact ⟨h2, fun hex => Bool.noConfusion hex⟩
    · cases h
      exact ⟨rfl, fun hex => Bool.noConfusion hex⟩

theorem App.add_cube_length (app : App) (rnd : ℝ × ℝ × ℝ) (a : App)
    (h : app.add_cube rnd = some a) :
    a.cube_instances.length = app.cube_instances.length + 1 := by
  unfold App.add_cube at h
  split at h
  · cases h; simp
  · exact Option.noConfusion h

theorem App.window_event_space (app : App) (now : ℝ) (rnd : ℝ × ℝ × ℝ) :
    app.window_event spacePressEvent now rnd =
      (app.add_cube rnd).map fun a => { app := a, exited := false, cmds := [] } :=
  rfl

theorem App.window_event_redraw (app : App) (now : ℝ) (rnd : ℝ × ℝ × ℝ) :
    app.window_event .redrawRequested now rnd =
      (app.redraw now).map fun p =>
        { app := p.1, exited := false, cmds := p.2 } :=
  rfl

/-! ## The claims -/

/-- C3: for every keyboard-input window event whose physical key is W or
ArrowUp (resp. S or ArrowDown, A or ArrowLeft, D or ArrowRight),
`Controller::process_events` sets `is_up_pressed` (resp. `is_down_pressed`,
`is_left_pressed`, `is_right_pressed`) to `true` exactly when the key state
is `Pressed` and to `false` otherwise (leaving the rest of the controller
unchanged), and returns `true`. -/
theorem c3_process_events_movement_keys (c : Controller) (st : ElementState)
    (lk : Key) :
    c.process_events (.keyboardInput ⟨st, .code .keyW, lk⟩) =
        ({ c with is_up_pressed := st = ElementState.pressed }, true) ∧
    c.process_events (.keyboardInput ⟨st, .code .arrowUp, lk⟩) =
        ({ c with is_up_pressed := st = ElementState.pressed }, true) ∧
    c.process_events (.keyboardInput ⟨st, .code .keyS, lk⟩) =
        ({ c with is_down_pressed := st = ElementState.pressed }, true) ∧
    c.process_events (.keyboardInput ⟨st, .code .arrowDown, lk⟩) =
        ({ c with is_down_pressed := st = ElementState.pressed }, true) ∧
    c.process_events (.keyboardInput ⟨st, .code .keyA, lk⟩) =
        ({ c with is_left_pressed := st = ElementState.pressed }, true) ∧
    c.process_events (.keyboardInput ⟨st, .code .arrowLeft, lk⟩) =
        ({ c with is_left_pressed := st = ElementState.pressed }, true) ∧
    c.process_events (.keyboardInput ⟨st, .code .keyD, lk⟩) =
        ({ c with is_right_pressed := st = ElementState.pressed }, true) ∧
    c.process_events (.keyboardInput ⟨st, .code .arrowRight, lk⟩) =
        ({ c with is_right_pressed := st = ElementState.pressed }, true) :=
  ⟨rfl, rfl, rfl, rfl, rfl, rfl, rfl, rfl⟩

/-- C8: for every window event that is not a keyboard input on one of the
eight movement keys (W/A/S/D and the four arrows, by physical key code),
`Controller::process_events` returns `false` and leaves the controller
(velocity and all four pressed flags) unchanged. -/
theorem c8_process_events_other_events (c : Controller) (e : WindowEvent)
    (h : isMovementKeyEvent e = false) :
    c.process_events e = (c, false) := by
  cases e with
  | keyboardInput ev =>
    obtain ⟨st, pk, lk⟩ := ev
    cases pk with
    | code k =>
      cases k <;>
        first
        | rfl
        | simp_all [isMovementKeyEvent, isMovementKey]
    | unidentified => rfl
  | closeRequested => rfl
  | redrawRequested => rfl
  | other n => rfl

/-- Witness for C8 at a concrete input: a Space key press is not a
movement-key event and leaves a fresh controller unchanged. -/
theorem c8_witness :
    (Controller.new 0.5).process_events spacePressEvent =
      (Controller.new 0.5, false) :=
  c8_process_events_other_events (Controller.new 0.5) spacePressEvent rfl

/-- C2: whenever `App::update` runs without panicking, every cube
instance's position is displaced by one and the same vector, namely the
controller's velocity times `normalize d` (with `d` left unnormalized when
zero), where `d` accumulates +1 in z for up, -1 in z for down, -1 in x for
left and +1 in x for right. -/
theorem c2_update_moves_all_instances (app : App) (now : ℝ)
    (hq : app.queue.isSome = true) (hb : app.cube_instance_buffer.isSome = true) :
    (app.update now).map App.cube_instances =
      some (app.cube_instances.map fun i =>
        { i with position := i.position + specMoveVector app.controller }) := by
  obtain ⟨q, hq⟩ := Option.isSome_iff_exists.mp hq
  obtain ⟨b, hb⟩ := Option.isSome_iff_exists.mp hb
  rw [App.update_eq app now q b hq hb]
  simp [update_move_vector_eq_spec]

/-- Witness for C2 at a concrete input: the freshly initialized state. -/
theorem c2_witness :
    (appW.update 0).map App.cube_instances =
      some (appW.cube_instances.map fun i =>
        { i with position := i.position + specMoveVector appW.controller }) :=
  c2_update_moves_all_instances appW 0 rfl rfl

/-- C6: no operation of the program after initialization (event dispatch,
which includes the redraw and its per-frame update, the per-frame update
itself, and cube spawning) ever changes the `camera` field of the
application state. -/
theorem c6_camera_never_mutated (app : App) (e : WindowEvent) (now : ℝ)
    (rnd : ℝ × ℝ × ℝ) :
    (∀ o, app.window_event e now rnd = some o → o.app.camera = app.camera) ∧
    (∀ a, app.update now = some a → a.camera = app.camera) ∧
    (∀ a, app.add_cube rnd = some a → a.camera = app.camera) :=
  ⟨fun o h => (App.window_event_props app e now rnd o h).1,
   fun a h => App.update_camera_eq app now a h,
   fun a h => App.add_cube_camera_eq app rnd a h⟩

/-- Witness for C6 at a concrete input: dispatching a close request on the
initialized state leaves the camera unchanged. -/
theorem c6_witness :
    ({ app := appW, exited := true, cmds := [] } : EventOut).app.camera =
      appW.camera :=
  (c6_camera_never_mutated appW .closeRequested 0 (0, 0, 0)).1 _ rfl

/-- C5: a close request exits the event loop, a press of the Escape key
exits the event loop, and any dispatch that exits was a close request or a
keyboard input with the Escape logical key pressed — no other event causes
an exit. -/
theorem c5_close_and_escape_exit (app : App) (e : WindowEvent) (now : ℝ)
    (rnd : ℝ × ℝ × ℝ) :
    ((app.window_event .closeRequested now rnd).map EventOut.exited =
        some true) ∧
    ((app.window_event escapePressEvent now rnd).map EventOut.exited =
        some true) ∧
    (∀ o, app.window_event e now rnd = some o → o.exited = true →
      e = .closeRequested ∨ isEscapeLogicalPress e = true) :=
  ⟨rfl, rfl, fun o h hex => (App.window_event_props app e now rnd o h).2 hex⟩

/-- Witness for C5 at a concrete input: the close request on the
initialized state exits, and it is classified as a close request. -/
theorem c5_witness :
    (appW.window_event .closeRequested 0 (0, 0, 0)).map EventOut.exited =
        some true ∧
      (WindowEvent.closeRequested = WindowEvent.closeRequested ∨
        isEscapeLogicalPress .closeRequested = true) :=
  ⟨(c5_close_and_escape_exit appW .closeRequested 0 (0, 0, 0)).1,
   (c5_close_and_escape_exit appW .closeRequested 0 (0, 0, 0)).2.2
     ⟨appW, true, []⟩ rfl rfl⟩

/-- C4: dispatching a Space key press adds exactly one cube instance, and
a subsequent redraw draws one more instanced copy of the cube mesh than
the state had before the Space press. -/
theorem c4_space_spawns_one_cube (app : App) (now now2 : ℝ)
    (rnd rnd2 : ℝ × ℝ × ℝ) (hd : app.device.isSome = true)
    (hq : app.queue.isSome = true) :
    ((app.window_event spacePressEvent now rnd).map fun o =>
        o.app.cube_instances.length) = some (app.cube_instances.length + 1) ∧
    (∀ o o2, app.window_event spacePressEvent now rnd = some o →
      o.app.window_event .redrawRequested now2 rnd2 = some o2 →
      cubeDrawInstances o2.cmds = some (app.cube_instances.length + 1)) := by
  obtain ⟨d, hd⟩ := Option.isSome_iff_exists.mp hd
  obtain ⟨q, hq⟩ := Option.isSome_iff_exists.mp hq
  constructor
  · rw [App.window_event_space, App.add_cube_eq app rnd d q hd hq]
    simp
  · intro o o2 h h2
    rw [App.window_event_space] at h
    simp only [Option.map_eq_some'] at h
    obtain ⟨a, ha, ho⟩ := h
    subst ho
    rw [App.window_event_redraw] at h2
    simp only [Option.map_eq_some'] at h2
    obtain ⟨pr, hpr, ho2⟩ := h2
    subst ho2
    have hlen := App.add_cube_length app rnd a ha
    have hprops := (App.redraw_props a now2 pr hpr).2
    simpa [hlen] using hprops

/-- Witness for C4 at a concrete input: the initialized state, which has
one cube instance, has two after a Space press. -/
theorem c4_witness :
    ((appW.window_event spacePressEvent 0 (0, 0, 0)).map fun o =>
        o.app.cube_instances.length) = some (appW.cube_instances.length + 1) :=
  (c4_space_spawns_one_cube appW 0 0 (0, 0, 0) (0, 0, 0) rfl rfl).1

/-- C1 counterexample: on the initialized state, a `RedrawRequested`
dispatch issues no draw call at all while the background pipeline is
bound — the claim that a draw call for the background quad is issued every
frame is false (the source comments that call out, src/main.rs line 716). -/
theorem c1_counterexample :
    (appW.window_event .redrawRequested 0 (0, 0, 0)).map
        (fun o => drawsBackgroundQuad o.cmds) = some false := by
  decide

/-- C1 amended: on every `RedrawRequested` event dispatched on a fully
populated state, the redraw handler issues exactly this sequence: clear,
bind the background pipeline with its texture/quad buffers (but issue no
draw call for the background quad), switch to the cube pipeline and draw
the cube mesh instanced, draw the text overlay, submit, present, request
the next redraw. -/
theorem c1_frame_command_order (app : App) (now : ℝ) (rnd : ℝ × ℝ × ℝ)
    (q : Unit) (buf : List InstanceRaw) (hq : app.queue = some q)
    (hb : app.cube_instance_buffer = some buf)
    (hs : app.surface.isSome = true) (hd : app.device.isSome = true)
    (hbp : app.background_render_pipeline.isSome = true)
    (hbtg : app.background_texture_bind_group.isSome = true)
    (hcbg : app.camera_bind_group.isSome = true)
    (hbvb : app.background_vertex_buffer.isSome = true)
    (hbib : app.background_index_buffer.isSome = true)
    (hcp : app.cube_pipeline.isSome = true)
    (cm : Cube) (hcm : app.cube_model = some cm)
    (mesh : Mesh) (hmesh : cm.meshes.head? = some mesh)
    (mat : Material) (hmat : cm.materials.head? = some mat)
    (hbr : app.brush.isSome = true) (hw : app.window.isSome = true) :
    (app.window_event .redrawRequested now rnd).map EventOut.cmds =
        some (frameCmds mesh.num_elements app.cube_instances.length) ∧
      drawsBackgroundQuad
          (frameCmds mesh.num_elements app.cube_instances.length) = false := by
  have h := App.redraw_cmds_eq app now q buf hq hb hs hd hbp hbtg hcbg hbvb
    hbib hcp cm hcm mesh hmesh mat hmat hbr hw
  rw [App.window_event_redraw]
  refine ⟨?_, rfl⟩
  cases hr : app.redraw now with
  | none => rw [hr] at h; exact Option.noConfusion h
  | some pr =>
    rw [hr] at h
    simp only [Option.map_some'] at h ⊢
    rw [← h]

/-- Witness for the amended C1 at a concrete input: the initialized
state. -/
theorem c1_witness :
    (appW.window_event .redrawRequested 0 (0, 0, 0)).map EventOut.cmds =
        some (frameCmds meshW.num_elements appW.cube_instances.length) ∧
      drawsBackgroundQuad
          (frameCmds meshW.num_elements appW.cube_instances.length) = false :=
  c1_frame_command_order appW 0 (0, 0, 0) () ([instW].map Instance.to_raw)
    rfl rfl rfl rfl rfl rfl rfl rfl rfl rfl
    { meshes := [meshW], materials := [materialW] } rfl meshW rfl materialW rfl
    rfl rfl

theorem mapCollect_isSome {α β : Type} (f : α → Option β) (l : List α) :
    (mapCollect f l).isSome = true ↔ ∀ a ∈ l, (f a).isSome = true := by
  induction l with
  | nil => simp [mapCollect]
  | cons a l ih =>
    simp only [mapCollect, Option.bind_eq_bind, List.mem_cons]
    constructor
    · intro h
      cases hf : f a with
      | none => rw [hf] at h; simp at h
      | some b =>
        rw [hf] at h
        cases hm : mapCollect f l with
        | none => rw [hm] at h; simp at h
        | some bs =>
          intro x hx
          rcases hx with rfl | hx
          · simp [hf]
          · exact (ih.mp (by simp [hm])) x hx
    · intro h
      obtain ⟨b, hb⟩ := Option.isSome_iff_exists.mp (h a (Or.inl rfl))
      obtain ⟨bs, hbs⟩ :=
        Option.isSome_iff_exists.mp (ih.mpr fun x hx => h x (Or.inr hx))
      rw [hb, hbs]
      simp

theorem vertexAt_isSome (m : ObjMesh) (i : Nat) :
    (vertexAt m i).isSome = true ↔
      (i * 3 + 2 < m.positions.length ∧ i * 2 + 1 < m.texcoords.length ∧
        (m.normals.isEmpty = true ∨ i * 3 + 2 < m.normals.length)) := by
  unfold vertexAt
  split
  next hn =>
    constructor
    · intro h
      obtain ⟨v, hv⟩ := Option.isSome_iff_exists.mp h
      simp only [Option.bind_eq_bind, Option.bind_eq_some'] at hv
      obtain ⟨p0, hp0, hv⟩ := hv
      obtain ⟨p1, hp1, hv⟩ := hv
      obtain ⟨p2, hp2, hv⟩ := hv
      obtain ⟨t0, ht0, hv⟩ := hv
      obtain ⟨t1, ht1, hv⟩ := hv
      refine ⟨?_, ?_, Or.inl hn⟩
      · by_contra hc
        rw [List.getElem?_eq_none (Nat.le_of_not_lt hc)] at hp2
        exact Option.noConfusion hp2
      · by_contra hc
        rw [List.getElem?_eq_none (Nat.le_of_not_lt hc)] at ht1
        exact Option.noConfusion ht1
    · rintro ⟨hp, ht, -⟩
      rw [List.getElem?_eq_getElem (show i * 3 < m.positions.length by omega),
        List.getElem?_eq_getElem (show i * 3 + 1 < m.positions.length by omega),
        List.getElem?_eq_getElem hp,
        List.getElem?_eq_getElem (show i * 2 < m.texcoords.length by omega),
        List.getElem?_eq_getElem ht]
      simp
  next hn =>
    constructor
    · intro h
      obtain ⟨v, hv⟩ := Option.isSome_iff_exists.mp h
      simp only [Option.bind_eq_bind, Option.bind_eq_some'] at hv
      obtain ⟨p0, hp0, hv⟩ := hv
      obtain ⟨p1, hp1, hv⟩ := hv
      obtain ⟨p2, hp2, hv⟩ := hv
      obtain ⟨t0, ht0, hv⟩ := hv
      obtain ⟨t1, ht1, hv⟩ := hv
      obtain ⟨n0, hn0, hv⟩ := hv
      obtain ⟨n1, hn1, hv⟩ := hv
      obtain ⟨n2, hn2, hv⟩ := hv
      refine ⟨?_, ?_, Or.inr ?_⟩
      · by_contra hc
        rw [List.getElem?_eq_none (Nat.le_of_not_lt hc)] at hp2
        exact Option.noConfusion hp2
      · by_contra hc
        rw [List.getElem?_eq_none (Nat.le_of_not_lt hc)] at ht1
        exact Option.noConfusion ht1
      · by_contra hc
        rw [List.getElem?_eq_none (Nat.le_of_not_lt hc)] at hn2
        exact Option.noConfusion hn2
    · rintro ⟨hp, ht, hn'⟩
      rcases hn' with hn' | hn'
      · exact absurd hn' hn
      · rw [List.getElem?_eq_getElem (show i * 3 < m.positions.length by omega),
          List.getElem?_eq_getElem (show i * 3 + 1 < m.positions.length by omega),
          List.getElem?_eq_getElem hp,
          List.getElem?_eq_getElem (show i * 2 < m.texcoords.length by omega),
          List.getElem?_eq_getElem ht,
          List.getElem?_eq_getElem (show i * 3 < m.normals.length by omega),
          List.getElem?_eq_getElem (show i * 3 + 1 < m.normals.length by omega),
          List.getElem?_eq_getElem hn']
        simp

/-- The condition under which the vertex loop of `load_cube` stays in
bounds for one loaded model (the position indices are always in bounds by
the choice of the loop bound, so only the texcoord and normal lists
constrain it). -/
def vertexLoopInBounds (m : ObjMesh) : Prop :=
  ∀ i < m.positions.length / 3,
    i * 2 + 1 < m.texcoords.length ∧
    (m.normals.isEmpty = true ∨ i * 3 + 2 < m.normals.length)

theorem vertex_loop_isSome (m : ObjMesh) :
    (mapCollect (vertexAt m)
        (List.range (m.positions.length / 3))).isSome = true ↔
      vertexLoopInBounds m := by
  rw [mapCollect_isSome]
  unfold vertexLoopInBounds
  simp only [List.mem_range]
  constructor
  · intro h i hi
    have hv := (vertexAt_isSome m i).mp (h i hi)
    exact ⟨hv.2.1, hv.2.2⟩
  · intro h i hi
    have h1 := Nat.div_mul_le_self m.positions.length 3
    exact (vertexAt_isSome m i).mpr
      ⟨by omega, (h i hi).1, (h i hi).2⟩

theorem meshes_mapCollect_isSome (fn : String) (ms : List ObjModel) :
    (mapCollect (fun m =>
        (mapCollect (vertexAt m.mesh)
          (List.range (m.mesh.positions.length / 3))).bind fun vertices =>
          some ({ name := fn
                  vertex_buffer := vertices
                  index_buffer := m.mesh.indices
                  num_elements := m.mesh.indices.length
                  material := m.mesh.material_id.getD 0 } : Mesh)) ms).isSome =
        true ↔
      ∀ m ∈ ms, vertexLoopInBounds m.mesh := by
  rw [mapCollect_isSome]
  constructor
  · intro h m hm
    have hs := h m hm
    refine (vertex_loop_isSome m.mesh).mp ?_
    cases hx : mapCollect (vertexAt m.mesh)
        (List.range (m.mesh.positions.length / 3)) with
    | none => rw [hx] at hs; simp at hs
    | some vs => simp
  · intro h m hm
    obtain ⟨vs, hvs⟩ :=
      Option.isSome_iff_exists.mp ((vertex_loop_isSome m.mesh).mpr (h m hm))
    simp [hvs]

theorem load_cube_ok_iff (fn : String) (env : InitEnv) :
    (∃ cube, load_cube fn env = some (.ok cube)) ↔
      ((∃ ms, env.load_obj = .ok ms ∧ ∀ m ∈ ms, vertexLoopInBounds m.mesh) ∧
       (∃ m l, env.load_mtl = .ok (m :: l)) ∧
       (∃ u, env.cube_from_bytes = .ok u)) := by
  rcases hlo : env.load_obj with e | ms <;>
    rcases hlm : env.load_mtl with e2 | l <;>
    (try rcases l with _ | ⟨m0, l0⟩) <;>
    rcases hcf : env.cube_from_bytes with e3 | u <;>
    simp [load_cube, hlo, hlm, hcf]
  constructor
  · rintro ⟨cube, hc⟩
    cases hmc : mapCollect (fun m =>
        (mapCollect (vertexAt m.mesh)
          (List.range (m.mesh.positions.length / 3))).bind fun vertices =>
          some ({ name := fn
                  vertex_buffer := vertices
                  index_buffer := m.mesh.indices
                  num_elements := m.mesh.indices.length
                  material := m.mesh.material_id.getD 0 } : Mesh)) ms with
    | none => rw [hmc] at hc; exact Option.noConfusion hc
    | some meshes =>
      exact (meshes_mapCollect_isSome fn ms).mp (by simp [hmc])
  · intro hbounds
    obtain ⟨meshes, hmc⟩ := Option.isSome_iff_exists.mp
      ((meshes_mapCollect_isSome fn ms).mpr hbounds)
    rw [hmc]
    exact ⟨_, rfl⟩

/-- C7: initialization completes if and only if every fallible operation
succeeded: window and surface creation, adapter and device acquisition,
font-brush construction, the two texture loads, the OBJ load with every
loaded model's texcoord/normal lists long enough for the vertex loop (an
out-of-bounds index there is a panic), and the MTL load with at least one
material.  Any failure aborts immediately — no error is ever returned to
a caller that keeps running. -/
theorem c7_init_aborts_on_any_failure (env : InitEnv) :
    (resumed_init env).isSome = true ↔
      (env.create_window.isSome = true ∧ env.create_surface.isSome = true ∧
       env.request_adapter.isSome = true ∧ env.request_device.isSome = true ∧
       env.brush_build.isSome = true ∧
       (∃ u, env.background_from_bytes = .ok u) ∧
       (∃ ms, env.load_obj = .ok ms ∧ ∀ m ∈ ms, vertexLoopInBounds m.mesh) ∧
       (∃ m l, env.load_mtl = .ok (m :: l)) ∧
       (∃ u, env.cube_from_bytes = .ok u)) := by
  have hlc := load_cube_ok_iff "cube.obj" env
  constructor
  · intro h
    obtain ⟨c, hc⟩ := Option.isSome_iff_exists.mp h
    unfold resumed_init at hc
    simp only [Option.bind_eq_bind, Option.bind_eq_some'] at hc
    obtain ⟨w, hw, hc⟩ := hc
    obtain ⟨s, hs, hc⟩ := hc
    obtain ⟨a, ha, hc⟩ := hc
    obtain ⟨d, hd, hc⟩ := hc
    obtain ⟨b, hb, hc⟩ := hc
    obtain ⟨t, ht, hc⟩ := hc
    have hbg : ∃ u, env.background_from_bytes = .ok u := by
      rcases hbf : env.background_from_bytes with e | u
      · rw [hbf] at ht
        simp [Except.toOption] at ht
      · exact ⟨u, rfl⟩
    have hok : ∃ cube, load_cube "cube.obj" env = some (.ok cube) := by
      rcases hl : load_cube "cube.obj" env with _ | r
      · rw [hl] at hc
        exact Option.noConfusion hc
      · rcases r with e | cube
        · rw [hl] at hc
          exact Option.noConfusion hc
        · exact ⟨cube, rfl⟩
    exact ⟨by simp [hw], by simp [hs], by simp [ha], by simp [hd],
      by simp [hb], hbg, (hlc.mp hok).1, (hlc.mp hok).2.1, (hlc.mp hok).2.2⟩
  · rintro ⟨h1, h2, h3, h4, h5, ⟨u6, h6⟩, h7, h8, h9⟩
    obtain ⟨cube, hcube⟩ := hlc.mpr ⟨h7, h8, h9⟩
    obtain ⟨w, hw⟩ := Option.isSome_iff_exists.mp h1
    obtain ⟨s, hs⟩ := Option.isSome_iff_exists.mp h2
    obtain ⟨a, ha⟩ := Option.isSome_iff_exists.mp h3
    obtain ⟨d, hd⟩ := Option.isSome_iff_exists.mp h4
    obtain ⟨b, hb⟩ := Option.isSome_iff_exists.mp h5
    unfold resumed_init
    simp [hw, hs, ha, hd, hb, h6, hcube, Except.toOption]

end Praxis
